import Mathlib

/-!
Verification of the Photo Portal GPIO service (`src/gpio_service.py`) and the
console diagnostic tool (`src/diagnostic.py`).

The Python code is shallowly embedded: duty cycles and normalized analog
values become rationals, the ADC polling loop becomes a fold over the list
of raw samples, the broadcast pass becomes a structural recursion over the
client list, the inbound-command dispatcher becomes a function from parsed
messages to the LED state, and the shutdown path becomes an explicit trace
of teardown actions.
-/

namespace PhotoPortal

/-! ## Analog poller (`adc_reader_loop` in src/gpio_service.py)

`ADC_CHANGE_THRESHOLD = 0.02`; each tick reads a raw 16-bit sample, divides
by `32767.0`, and compares the absolute difference against the last
*accepted* value held in `last_adc_value`; on a change `>=` threshold the
accepted value is overwritten and a `ZOOM_DIAL` event is handed to
`broadcast_event`, otherwise nothing happens. -/

def ADC_CHANGE_THRESHOLD : ℚ := 2 / 100

/-- `raw_value / 32767.0` — normalization of a raw ADC sample to `[0, 1]`. -/
def normalizeRaw (raw : ℕ) : ℚ := (raw : ℚ) / 32767

/-- A `ZOOM_DIAL` event as built by the ADC loop: `{"type": "ZOOM_DIAL",
"value": normalized_value}` carries just the normalized value. -/
structure ZoomEvent where
  value : ℚ
deriving Repr, DecidableEq

/-- One iteration of the `while adc_running` body of `adc_reader_loop`:
given the current `last_adc_value` and the raw sample of this tick, return
the new `last_adc_value` and the event broadcast this tick (if any). -/
def adc_reader_tick (last_adc_value : ℚ) (raw_value : ℕ) :
    ℚ × Option ZoomEvent :=
  let normalized_value := normalizeRaw raw_value
  let change := |normalized_value - last_adc_value|
  if ADC_CHANGE_THRESHOLD ≤ change then
    (normalized_value, some ⟨normalized_value⟩)
  else
    (last_adc_value, none)

/-- The polling loop over a whole sequence of raw samples (the samples read
after initialization, which seeds `last_adc_value` with the first
normalized reading without emitting). Returns the final accepted value and
the list of emitted events in order. -/
def adc_reader_run (last_adc_value : ℚ) : List ℕ → ℚ × List ZoomEvent
  | [] => (last_adc_value, [])
  | raw :: rest =>
    let step := adc_reader_tick last_adc_value raw
    let tail := adc_reader_run step.1 rest
    (tail.1, step.2.toList ++ tail.2)

/-! ## Cross-context bridge (`broadcast_event` in src/gpio_service.py)

`broadcast_event` is called from producer threads. It returns early when
`event_queue` is not yet created, returns early when `connected_clients`
is empty, and otherwise queues the serialized event onto the asyncio loop
when that loop is running, logging a warning when it is not. -/

/-- A connected subscriber. `sendOk` records whether `client.send(message)`
succeeds for this client during the pass under consideration (a failed
send models `ConnectionClosed` or any other exception). -/
structure Client where
  id : ℕ
  sendOk : Bool
deriving Repr, DecidableEq

/-- What `broadcast_event` does with one event. -/
inductive SubmitResult
  | skippedNoQueue
  | skippedNoClients
  | queued
  | loopNotRunning
deriving Repr, DecidableEq

/-- `broadcast_event`: guard on `event_queue`, then on `connected_clients`,
then hand the message to the running loop. -/
def broadcast_event (queueReady : Bool) (connected_clients : List Client)
    (loopRunning : Bool) : SubmitResult :=
  if !queueReady then SubmitResult.skippedNoQueue
  else if connected_clients.isEmpty then SubmitResult.skippedNoClients
  else if loopRunning then SubmitResult.queued
  else SubmitResult.loopNotRunning

/-! ## Broadcast worker (`broadcast_worker` in src/gpio_service.py)

One pass over one dequeued message: iterate a copy of
`connected_clients`, `await client.send(message)` on each, collect the
clients whose send raised into `disconnected`, then remove them with
`connected_clients -= disconnected`. -/

/-- The `for client in connected_clients.copy()` loop: returns the clients
a send was attempted on (in iteration order) and the `disconnected` set
(as the sublist of failed clients). A failure only adds the client to
`disconnected`; the loop continues with the next client. -/
def broadcast_worker_send_loop : List Client → List Client × List Client
  | [] => ([], [])
  | client :: rest =>
    let tail := broadcast_worker_send_loop rest
    if client.sendOk then (client :: tail.1, tail.2)
    else (client :: tail.1, client :: tail.2)

/-- One full pass of `broadcast_worker` on one message: the send loop
followed by `connected_clients -= disconnected`. Returns (clients
attempted, registry after the pass). -/
def broadcast_worker_pass (connected_clients : List Client) :
    List Client × List Client :=
  let loop := broadcast_worker_send_loop connected_clients
  (loop.1, connected_clients.filter (fun c => decide (c ∉ loop.2)))

theorem broadcast_worker_send_loop_eq (l : List Client) :
    broadcast_worker_send_loop l = (l, l.filter (fun c => !c.sendOk)) := by
  induction l with
  | nil => rfl
  | cons c rest ih =>
    simp only [broadcast_worker_send_loop, ih, List.filter_cons]
    cases h : c.sendOk <;> simp [h]

/-! ## GPIO event handlers (`create_gpio_event_handler`,
`setup_gpio_inputs` in src/gpio_service.py)

Every configured input gets a `when_activated` handler; only `MAP_TOGGLE`
also gets a `when_deactivated` handler. The handler for `MAP_TOGGLE`
reads `device.value` (False while active, True while inactive), derives
`"OFF" if device.value else "ON"`, writes it into `switch_states`, and
then broadcasts `{"type": event_type, "value": state}`; every other input
broadcasts a bare `{"type": event_type}` and never touches
`switch_states`. -/

/-- A value carried by an outbound event: toggle states are strings, the
zoom dial carries a normalized number. -/
inductive EventValue
  | s (v : String)
  | q (v : ℚ)
deriving Repr, DecidableEq

/-- An outbound event dict `{"type": ..., "value": ...?}` before
`json.dumps`. -/
structure Event where
  type : String
  value : Option EventValue
deriving Repr, DecidableEq

/-- Lookup in the `switch_states` dict. -/
def tableGet (switch_states : List (String × String)) (k : String) :
    Option String :=
  (switch_states.find? (fun p => p.1 == k)).map Prod.snd

/-- `switch_states[k] = v`. -/
def tableSet (switch_states : List (String × String)) (k v : String) :
    List (String × String) :=
  (k, v) :: switch_states

/-- The closure built by `create_gpio_event_handler(input_name,
event_type)`. `deviceValue` is `device.value` at handler time; `none`
models `input_devices.get(input_name)` returning `None`. Returns the new
`switch_states` and the event handed to `broadcast_event`, if any. -/
def create_gpio_event_handler (input_name event_type : String)
    (deviceValue : Option Bool) (switch_states : List (String × String)) :
    List (String × String) × Option Event :=
  if input_name = "MAP_TOGGLE" then
    match deviceValue with
    | none => (switch_states, none)
    | some v =>
      let state := if v then "OFF" else "ON"
      (tableSet switch_states input_name state,
       some ⟨event_type, some (EventValue.s state)⟩)
  else
    (switch_states, some ⟨event_type, none⟩)

/-- A debounced edge of a digital input. -/
inductive Edge
  | activated
  | deactivated
deriving Repr, DecidableEq

/-- Inputs that got a `when_activated` handler in `setup_gpio_inputs`:
all four configured inputs. -/
def hasActivatedHandler (name : String) : Bool :=
  name == "LIKE_BUTTON" || name == "MAP_TOGGLE" ||
    name == "METADATA_TOGGLE" || name == "MESSAGE_BUTTON"

/-- Inputs that got a `when_deactivated` handler in `setup_gpio_inputs`:
only `MAP_TOGGLE`. -/
def hasDeactivatedHandler (name : String) : Bool :=
  name == "MAP_TOGGLE"

/-- One debounced edge on input `name` (whose `event_type` equals `name`
in `input_configs`): run the handler registered for that edge, if any.
At handler time `device.value` is `false` on an activation edge and
`true` on a deactivation edge. -/
def processEdge (name : String) (e : Edge)
    (switch_states : List (String × String)) :
    List (String × String) × List Event :=
  let registered := match e with
    | Edge.activated => hasActivatedHandler name
    | Edge.deactivated => hasDeactivatedHandler name
  if registered then
    let r := create_gpio_event_handler name name
      (some (e == Edge.deactivated)) switch_states
    (r.1, r.2.toList)
  else (switch_states, [])

/-- A sequence of debounced edges on one input, threading
`switch_states` and collecting the broadcast events in order. -/
def runEdges (name : String) (switch_states : List (String × String)) :
    List Edge → List (String × String) × List Event
  | [] => (switch_states, [])
  | e :: rest =>
    let step := processEdge name e switch_states
    let tail := runEdges name step.1 rest
    (tail.1, step.2 ++ tail.2)

/-- The logical toggle state reported for an edge: activation (pin pulled
low) reads as `"ON"`, deactivation as `"OFF"`. -/
def edgeState : Edge → String
  | Edge.activated => "ON"
  | Edge.deactivated => "OFF"

/-! ## Initial snapshot for a new client (`send_initial_states` in
src/gpio_service.py)

`handle_client` registers the socket, then calls `send_initial_states`
before entering its inbound loop; so these are the messages a new
subscriber receives before any live event. -/

/-- `send_initial_states`: the `MAP_TOGGLE` entry of `switch_states` if
present, then — exactly when `ADC_AVAILABLE` — the current
`last_adc_value` as a `ZOOM_DIAL` event. -/
def send_initial_states (switch_states : List (String × String))
    (adcAvailable : Bool) (last_adc_value : ℚ) : List Event :=
  (match tableGet switch_states "MAP_TOGGLE" with
   | some state => [⟨"MAP_TOGGLE", some (EventValue.s state)⟩]
   | none => []) ++
  (if adcAvailable
   then [⟨"ZOOM_DIAL", some (EventValue.q last_adc_value)⟩]
   else [])

/-! ## LED output (`setup_led`, `set_led_state` in src/gpio_service.py)

`setup_led` creates `PWMOutputDevice(GPIO_LED, initial_value=0.0,
frequency=1000)`. `set_led_state` upper-cases its argument: `"ON"` writes
duty 1.0, `"OFF"` writes 0.0, anything else logs `Invalid LED value` and
leaves the duty cycle untouched. -/

/-- ASCII upper-casing of one character, as Python's `str.upper` acts on
the ASCII values occurring here. -/
def upperChar (c : Char) : Char :=
  if 'a' ≤ c ∧ c ≤ 'z' then Char.ofNat (c.toNat - 32) else c

/-- `value.upper()`. -/
def upperStr (s : String) : String := ⟨s.data.map upperChar⟩

/-- The duty cycle `setup_led` starts the device with. -/
def setup_led_initial_value : ℚ := 0

/-- `set_led_state(value)` acting on the current duty cycle. -/
def set_led_state (value : String) (duty : ℚ) : ℚ :=
  if upperStr value = "ON" then 1
  else if upperStr value = "OFF" then 0
  else duty

/-! ## Command dispatcher (inbound loop of `handle_client` in
src/gpio_service.py)

Each received text frame is `json.loads`-parsed; a dict with
`type == "LED"` applies `set_led_state(value)` only when
`value in ("ON", "OFF")` — an exact, case-sensitive membership test —
and every other shape logs a warning and does nothing. Exceptions from
one message are caught inside the loop, so the loop continues and the
connection stays registered until the stream itself ends. -/

/-- A parsed inbound frame: either `json.loads` raised
`JSONDecodeError`, or it produced a dict whose `type` and `value`
fields are read with `.get`. -/
inductive Inbound
  | invalidJson (raw : String)
  | cmd (cmdType : String) (value : Option String)
deriving Repr, DecidableEq

/-- What one iteration of the inbound loop did with its message. -/
inductive Outcome
  | applied
  | warnedInvalidValue
  | warnedUnknownType
  | warnedInvalidJson
deriving Repr, DecidableEq

/-- One iteration of the inbound loop: the new duty cycle and the
outcome. -/
def handle_client_message (msg : Inbound) (duty : ℚ) : ℚ × Outcome :=
  match msg with
  | Inbound.invalidJson _ => (duty, Outcome.warnedInvalidJson)
  | Inbound.cmd cmdType value =>
    if cmdType = "LED" then
      match value with
      | some v =>
        if v = "ON" ∨ v = "OFF" then (set_led_state v duty, Outcome.applied)
        else (duty, Outcome.warnedInvalidValue)
      | none => (duty, Outcome.warnedInvalidValue)
    else (duty, Outcome.warnedUnknownType)

/-- The whole inbound loop (`async for message in websocket`): every
message is dispatched in turn; no outcome stops the loop. -/
def handle_client_loop : List Inbound → ℚ → ℚ
  | [], duty => duty
  | msg :: rest, duty =>
    handle_client_loop rest (handle_client_message msg duty).1

theorem set_led_state_on (duty : ℚ) : set_led_state "ON" duty = 1 := by
  have h : upperStr "ON" = "ON" := by decide
  simp [set_led_state, h]

theorem set_led_state_off (duty : ℚ) : set_led_state "OFF" duty = 0 := by
  have h : upperStr "OFF" = "OFF" := by decide
  simp [set_led_state, h]

theorem handle_client_message_duty (msg : Inbound) (duty : ℚ) :
    (handle_client_message msg duty).1 = duty ∨
    (handle_client_message msg duty).1 = 0 ∨
    (handle_client_message msg duty).1 = 1 := by
  cases msg with
  | invalidJson raw => left; rfl
  | cmd cmdType value =>
    by_cases ht : cmdType = "LED"
    · cases value with
      | none => left; simp [handle_client_message, ht]
      | some v =>
        by_cases hv : v = "ON" ∨ v = "OFF"
        · rcases hv with rfl | rfl
          · right; right
            simp [handle_client_message, ht, set_led_state_on]
          · right; left
            simp [handle_client_message, ht, set_led_state_off]
        · left; simp [handle_client_message, ht, hv]
    · left; simp [handle_client_message, ht]

theorem handle_client_loop_duty (msgs : List Inbound) (duty : ℚ)
    (h : duty = 0 ∨ duty = 1) :
    handle_client_loop msgs duty = 0 ∨ handle_client_loop msgs duty = 1 := by
  induction msgs generalizing duty with
  | nil => simpa [handle_client_loop] using h
  | cons m rest ih =>
    have step : (handle_client_message m duty).1 = 0 ∨
        (handle_client_message m duty).1 = 1 := by
      rcases handle_client_message_duty m duty with hm | hm | hm
      · rw [hm]; exact h
      · exact Or.inl hm
      · exact Or.inr hm
    simpa [handle_client_loop] using ih _ step

/-! ## Shutdown (`cleanup`, `signal_handler` in src/gpio_service.py)

`cleanup()` sets `adc_running = False`, joins the ADC thread when it is
alive, then — when the LED device exists — writes `led_device.value =
0.0` and only afterwards `led_device.close()`, then closes each input
device. `signal_handler` runs `cleanup()` and then `sys.exit(0)`. -/

/-- One observable teardown action. -/
inductive Action
  | stopAdc
  | joinAdcThread
  | setDuty (v : ℚ)
  | closeLed
  | closeInput (name : String)
  | exitProcess (code : ℕ)
deriving Repr, DecidableEq

/-- The sequence of actions `cleanup()` performs. -/
def cleanup (adcThreadAlive ledPresent : Bool) (inputs : List String) :
    List Action :=
  [Action.stopAdc] ++
  (if adcThreadAlive then [Action.joinAdcThread] else []) ++
  (if ledPresent then [Action.setDuty 0, Action.closeLed] else []) ++
  inputs.map Action.closeInput

/-- The actions performed on a termination signal: `cleanup()` then
`sys.exit(0)`. -/
def signal_handler (adcThreadAlive ledPresent : Bool)
    (inputs : List String) : List Action :=
  cleanup adcThreadAlive ledPresent inputs ++ [Action.exitProcess 0]

/-! ## Diagnostic fade loop (`fade_led_loop` in src/diagnostic.py)

`fade_duration = 2.0` (the comment beside it reads `seconds for full
fade in/out cycle`), `steps = 100`, `step_delay = fade_duration /
steps`. Fading in runs `for i in range(steps + 1)` writing `i / steps`
then sleeping `step_delay`; fading out runs `for i in
range(steps, -1, -1)` the same way. -/

def fade_duration : ℚ := 2

def fade_steps : ℕ := 100

def step_delay : ℚ := fade_duration / (fade_steps : ℚ)

/-- Duty-cycle values written while fading in, in order. -/
def fadeInValues : List ℚ :=
  (List.range (fade_steps + 1)).map
    (fun i : ℕ => (i : ℚ) / (fade_steps : ℚ))

/-- Duty-cycle values written while fading out, in order. -/
def fadeOutValues : List ℚ :=
  ((List.range (fade_steps + 1)).reverse).map
    (fun i : ℕ => (i : ℚ) / (fade_steps : ℚ))

/-- One complete in/out cycle of `fade_led_loop` with `fade_active` held
true: each loop iteration writes one duty value and then sleeps
`step_delay`; an entry is (value written, delay slept). -/
def fade_led_loop_cycle : List (ℚ × ℚ) :=
  (fadeInValues ++ fadeOutValues).map (fun v => (v, step_delay))

/-- The sum of the programmed `time.sleep` delays over one complete
in/out cycle. -/
def fadeCycleDelaySum : ℚ := (fade_led_loop_cycle.map Prod.snd).sum

end PhotoPortal

namespace PhotoPortal

/-- C1. The ADC loop emits at a tick iff the normalized sample differs from
the last accepted value by at least the threshold; on emission the
accepted value becomes the new normalized value, and a below-threshold
tick changes nothing, so the next comparison is again against the last
accepted value. -/
theorem C1_adc_hysteresis (last_adc_value : ℚ) (raw_value : ℕ) :
    ((adc_reader_tick last_adc_value raw_value).2 ≠ none ↔
       ADC_CHANGE_THRESHOLD ≤ |normalizeRaw raw_value - last_adc_value|) ∧
    (ADC_CHANGE_THRESHOLD ≤ |normalizeRaw raw_value - last_adc_value| →
       adc_reader_tick last_adc_value raw_value =
         (normalizeRaw raw_value, some ⟨normalizeRaw raw_value⟩)) ∧
    (|normalizeRaw raw_value - last_adc_value| < ADC_CHANGE_THRESHOLD →
       adc_reader_tick last_adc_value raw_value = (last_adc_value, none)) := by
  refine ⟨?_, ?_, ?_⟩
  · simp only [adc_reader_tick]
    by_cases h : ADC_CHANGE_THRESHOLD ≤ |normalizeRaw raw_value - last_adc_value|
    · simp [h]
    · simp [h]
  · intro h
    simp only [adc_reader_tick]
    simp [h]
  · intro h
    simp only [adc_reader_tick]
    rw [if_neg (not_le.mpr h)]

/-- C1 witness: with accepted value 0, a raw sample of 656 (normalized
656/32767 ≥ 0.02) emits and updates, while a raw sample of 300 (normalized
below threshold) is discarded; the spec's example stream 0.000, 0.010,
0.015, 0.050 (as raws 0, 328, 491, 1638 it is close to) behaves the same. -/
theorem C1_adc_hysteresis_witness :
    adc_reader_tick 0 656 = (normalizeRaw 656, some ⟨normalizeRaw 656⟩) ∧
    adc_reader_tick 0 300 = (0, none) := by
  constructor
  · exact (C1_adc_hysteresis 0 656).2.1 (by
      rw [normalizeRaw, ADC_CHANGE_THRESHOLD]
      rw [abs_of_nonneg (by positivity)]
      norm_num)
  · exact (C1_adc_hysteresis 0 300).2.2 (by
      rw [normalizeRaw, ADC_CHANGE_THRESHOLD]
      rw [abs_of_nonneg (by positivity)]
      norm_num)

/-- C2 counterexample. With the queue initialized and the loop running but
no connected clients, `broadcast_event` skips the event instead of
queueing it: the event IS dropped merely because no clients are
connected. -/
theorem C2_counterexample :
    broadcast_event true [] true = SubmitResult.skippedNoClients ∧
    broadcast_event true [] true ≠ SubmitResult.queued := by
  constructor <;> decide

/-- C2 amended: an event submitted while the queue exists and the loop is
running is queued iff at least one client is connected at submission
time; with an empty registry it is skipped (with a debug log), and queue
absence likewise skips it. -/
theorem C2_bridge_requires_audience (queueReady loopRunning : Bool)
    (connected_clients : List Client) :
    (broadcast_event queueReady connected_clients loopRunning =
        SubmitResult.queued ↔
      queueReady = true ∧ connected_clients ≠ [] ∧ loopRunning = true) ∧
    (connected_clients = [] → queueReady = true →
      broadcast_event queueReady connected_clients loopRunning =
        SubmitResult.skippedNoClients) := by
  constructor
  · simp only [broadcast_event]
    cases queueReady <;> cases loopRunning <;>
      cases connected_clients <;> simp
  · rintro rfl rfl
    rfl

/-- C2 amended witness: with one connected client the event is queued. -/
theorem C2_bridge_requires_audience_witness :
    broadcast_event true [⟨0, true⟩] true = SubmitResult.queued :=
  (C2_bridge_requires_audience true true [⟨0, true⟩]).1.mpr
    ⟨rfl, by decide, rfl⟩

/-- C3. In one broadcast pass, a send is attempted on every client of the
registry snapshot in order — a failure for one client never prevents the
attempt on the remaining clients — and exactly the clients whose send
failed are removed from the registry within that same pass. -/
theorem C3_broadcast_pass_removal (connected_clients : List Client) :
    (broadcast_worker_pass connected_clients).1 = connected_clients ∧
    (broadcast_worker_pass connected_clients).2 =
      connected_clients.filter (fun c => c.sendOk) := by
  constructor
  · simp [broadcast_worker_pass, broadcast_worker_send_loop_eq]
  · simp only [broadcast_worker_pass, broadcast_worker_send_loop_eq]
    refine List.filter_congr ?_
    intro x hx
    by_cases h : x.sendOk <;> simp [List.mem_filter, h, hx]

/-- C4 counterexample. A deactivation edge on `METADATA_TOGGLE` emits no
event at all (no `when_deactivated` handler is registered for it), and
even its activation edge leaves `switch_states` untouched — so the claim
fails for the toggle input `METADATA_TOGGLE`. -/
theorem C4_counterexample :
    processEdge "METADATA_TOGGLE" Edge.deactivated [] = ([], []) ∧
    (processEdge "METADATA_TOGGLE" Edge.activated []).1 = [] := by
  constructor <;> rfl

/-- C4 amended: only `MAP_TOGGLE` behaves as claimed — on each edge it
writes the new state into `switch_states` before emitting an event whose
value is exactly that table entry, and ON→OFF→ON yields exactly the three
events ON, OFF, ON; `METADATA_TOGGLE` instead emits a bare value-free
event on the activation edge only and never updates the table. -/
theorem C4_toggle_edges_amended
    (switch_states : List (String × String)) (e : Edge) :
    (processEdge "MAP_TOGGLE" e switch_states =
        (tableSet switch_states "MAP_TOGGLE" (edgeState e),
         [⟨"MAP_TOGGLE", some (EventValue.s (edgeState e))⟩]) ∧
      tableGet (processEdge "MAP_TOGGLE" e switch_states).1 "MAP_TOGGLE" =
        some (edgeState e)) ∧
    (runEdges "MAP_TOGGLE" switch_states
        [Edge.activated, Edge.deactivated, Edge.activated]).2 =
      [⟨"MAP_TOGGLE", some (EventValue.s "ON")⟩,
       ⟨"MAP_TOGGLE", some (EventValue.s "OFF")⟩,
       ⟨"MAP_TOGGLE", some (EventValue.s "ON")⟩] ∧
    processEdge "METADATA_TOGGLE" Edge.activated switch_states =
      (switch_states, [⟨"METADATA_TOGGLE", none⟩]) ∧
    processEdge "METADATA_TOGGLE" Edge.deactivated switch_states =
      (switch_states, []) := by
  refine ⟨⟨?_, ?_⟩, ?_, ?_, ?_⟩ <;>
    cases e <;>
      simp [processEdge, create_gpio_event_handler, runEdges, tableSet,
        tableGet, edgeState, hasActivatedHandler, hasDeactivatedHandler]

/-- C5. A newly accepted subscriber is first sent the current
`MAP_TOGGLE` table entry, and then — exactly when the analog producer is
available — the current accepted `ZOOM_DIAL` value, before any live
event; nothing else is part of the snapshot. -/
theorem C5_initial_snapshot (switch_states : List (String × String))
    (adcAvailable : Bool) (v : ℚ) (state : String)
    (h : tableGet switch_states "MAP_TOGGLE" = some state) :
    send_initial_states switch_states adcAvailable v =
      ⟨"MAP_TOGGLE", some (EventValue.s state)⟩ ::
        (if adcAvailable
         then [⟨"ZOOM_DIAL", some (EventValue.q v)⟩]
         else []) ∧
    ((⟨"ZOOM_DIAL", some (EventValue.q v)⟩ : Event) ∈
        send_initial_states switch_states adcAvailable v ↔
      adcAvailable = true) := by
  constructor
  · simp [send_initial_states, h]
  · rw [send_initial_states, h]
    cases adcAvailable <;> simp

/-- C5 witness: with `MAP_TOGGLE` settled to `"ON"`, the accepted zoom
value at 0.42 and the ADC available, the snapshot is exactly the two
messages of the spec's scenario. -/
theorem C5_initial_snapshot_witness :
    send_initial_states [("MAP_TOGGLE", "ON")] true (21 / 50) =
      [⟨"MAP_TOGGLE", some (EventValue.s "ON")⟩,
       ⟨"ZOOM_DIAL", some (EventValue.q (21 / 50))⟩] := by
  have h := C5_initial_snapshot [("MAP_TOGGLE", "ON")] true (21 / 50) "ON"
    (by rfl)
  simpa using h.1

/-- C6 counterexample. The dispatcher's `value in ("ON", "OFF")` test is
case-sensitive, so from duty 0.0 the command value `"on"` is rejected as
invalid (duty stays 0.0) while `"ON"` sets duty 1.0: the two commands do
not produce the same resulting output state. -/
theorem C6_counterexample :
    handle_client_message (Inbound.cmd "LED" (some "on")) 0 =
      (0, Outcome.warnedInvalidValue) ∧
    handle_client_message (Inbound.cmd "LED" (some "ON")) 0 =
      (1, Outcome.applied) ∧
    (handle_client_message (Inbound.cmd "LED" (some "on")) 0).1 ≠
      (handle_client_message (Inbound.cmd "LED" (some "ON")) 0).1 := by
  refine ⟨?_, ?_, ?_⟩
  · simp [handle_client_message]
  · simp [handle_client_message, set_led_state_on]
  · simp [handle_client_message, set_led_state_on]

/-- C6 amended: the dispatcher matches the LED value case-sensitively —
`"on"` is logged as invalid and leaves the duty cycle unchanged, and only
the exact `"ON"` reaches `set_led_state` (which by itself would accept
either case, as its upper-casing shows). Applying `"ON"` is idempotent:
a second `"ON"` finds duty 1.0 and leaves it 1.0 with no error. -/
theorem C6_led_dispatch_case_sensitive (duty : ℚ) :
    handle_client_message (Inbound.cmd "LED" (some "on")) duty =
      (duty, Outcome.warnedInvalidValue) ∧
    handle_client_message (Inbound.cmd "LED" (some "ON")) duty =
      (1, Outcome.applied) ∧
    handle_client_message (Inbound.cmd "LED" (some "ON"))
        (handle_client_message (Inbound.cmd "LED" (some "ON")) duty).1 =
      (1, Outcome.applied) ∧
    set_led_state "on" duty = 1 := by
  have hup : upperStr "on" = "ON" := by decide
  refine ⟨?_, ?_, ?_, ?_⟩
  · simp [handle_client_message]
  · simp [handle_client_message, set_led_state_on]
  · simp [handle_client_message, set_led_state_on]
  · simp [set_led_state, hup]

/-- C7. Malformed inbound traffic — invalid JSON, an unknown command
type, or a LED command whose value is outside {"ON","OFF"} such as
"MAYBE" — is logged as a warning and ignored: the duty cycle is
unchanged and the inbound loop continues with the remaining messages
unchanged (the connection is only unregistered when the stream itself
ends, which no dispatch outcome causes). -/
theorem C7_protocol_faults (duty : ℚ) (raw cmdType : String)
    (value : Option String) (rest : List Inbound) (h : cmdType ≠ "LED") :
    handle_client_message (Inbound.invalidJson raw) duty =
      (duty, Outcome.warnedInvalidJson) ∧
    handle_client_message (Inbound.cmd cmdType value) duty =
      (duty, Outcome.warnedUnknownType) ∧
    handle_client_message (Inbound.cmd "LED" (some "MAYBE")) duty =
      (duty, Outcome.warnedInvalidValue) ∧
    handle_client_loop (Inbound.cmd "LED" (some "MAYBE") :: rest) duty =
      handle_client_loop rest duty := by
  refine ⟨rfl, ?_, ?_, ?_⟩
  · simp [handle_client_message, h]
  · simp [handle_client_message]
  · simp [handle_client_loop, handle_client_message]

/-- C7 witness: an unknown command type `"PING"` at duty 0.0 only logs
a warning and changes nothing. -/
theorem C7_protocol_faults_witness :
    handle_client_message (Inbound.cmd "PING" none) 0 =
      (0, Outcome.warnedUnknownType) :=
  (C7_protocol_faults 0 "x" "PING" none [] (by decide)).2.1

/-- C8. On a termination signal the teardown trace stops the analog
producer first, writes duty 0.0 strictly before closing the LED device,
writes no duty other than 0.0 anywhere during teardown, and ends with
process exit status 0. -/
theorem C8_teardown_order (adcThreadAlive ledPresent : Bool)
    (inputs : List String) :
    (signal_handler adcThreadAlive ledPresent inputs).getLast? =
      some (Action.exitProcess 0) ∧
    (∀ v : ℚ, Action.setDuty v ∈
        signal_handler adcThreadAlive ledPresent inputs → v = 0) ∧
    (ledPresent = true → ∃ j : ℕ, 0 < j ∧
      (signal_handler adcThreadAlive ledPresent inputs).get? 0 =
        some Action.stopAdc ∧
      (signal_handler adcThreadAlive ledPresent inputs).get? j =
        some (Action.setDuty 0) ∧
      (signal_handler adcThreadAlive ledPresent inputs).get? (j + 1) =
        some Action.closeLed) := by
  refine ⟨?_, ?_, ?_⟩
  · rw [signal_handler, List.getLast?_concat]
  · intro v hv
    cases adcThreadAlive <;> cases ledPresent <;>
      simp [signal_handler, cleanup] at hv
    all_goals exact hv
  · rintro rfl
    cases adcThreadAlive
    · exact ⟨1, Nat.one_pos, rfl, rfl, rfl⟩
    · exact ⟨2, Nat.succ_pos 1, rfl, rfl, rfl⟩

/-- C8 witness: with the ADC thread alive, the LED present and one input
device, the duty write 0.0 sits at index 2 and the close at index 3. -/
theorem C8_teardown_order_witness :
    ∃ j : ℕ, 0 < j ∧
      (signal_handler true true ["LIKE_BUTTON"]).get? 0 =
        some Action.stopAdc ∧
      (signal_handler true true ["LIKE_BUTTON"]).get? j =
        some (Action.setDuty 0) ∧
      (signal_handler true true ["LIKE_BUTTON"]).get? (j + 1) =
        some Action.closeLed :=
  (C8_teardown_order true true ["LIKE_BUTTON"]).2.2 rfl

/-- C9. The fade loop does sweep the duty cycle 0.0 → 1.0 → 0.0 in equal
1/100 steps, but each direction runs `steps + 1 = 101` iterations each
sleeping `step_delay = 0.02 s`, so the programmed delays of one complete
in/out cycle sum to 4.04 s — not the 2 s that the `fade_duration`
constant (whose comment reads "seconds for full fade in/out cycle")
promises. -/
theorem C9_fade_period_bug :
    fadeInValues.head? = some 0 ∧
    fadeInValues.getLast? = some 1 ∧
    fadeOutValues.getLast? = some 0 ∧
    fadeCycleDelaySum = 101 / 25 ∧
    fade_duration = 2 ∧
    fadeCycleDelaySum ≠ fade_duration := by
  have hlen : (fadeInValues ++ fadeOutValues).length = 202 := by
    simp [fadeInValues, fadeOutValues, fade_steps]
  have hsum : fadeCycleDelaySum = 101 / 25 := by
    have hmap : fade_led_loop_cycle.map Prod.snd =
        List.replicate (fadeInValues ++ fadeOutValues).length step_delay := by
      rw [fade_led_loop_cycle, List.map_map]
      exact List.map_const _ _
    rw [fadeCycleDelaySum, hmap, hlen, List.sum_replicate]
    norm_num [step_delay, fade_duration, fade_steps]
  refine ⟨?_, ?_, ?_, hsum, rfl, ?_⟩
  · have h0 : (List.range (fade_steps + 1)).head? = some 0 := rfl
    rw [fadeInValues, List.head?_map, h0]
    simp
  · rw [fadeInValues, show fade_steps + 1 = 100 + 1 from rfl,
      List.range_succ, List.map_append]
    simp [List.getLast?_concat, fade_steps]
  · have h0 : (List.range (fade_steps + 1)).head? = some 0 := rfl
    rw [fadeOutValues, List.map_reverse, List.getLast?_reverse,
      List.head?_map, h0]
    simp
  · rw [hsum, fade_duration]
    norm_num

/-- C10. In the network service the LED duty cycle is always exactly 0.0
or 1.0: it starts at `setup_led_initial_value = 0.0`, `set_led_state`
writes exactly 1.0 for "ON" and 0.0 for "OFF" and otherwise leaves the
duty unchanged, and the inbound loop — the only mutation path, there
being no fade stepper in the service — therefore keeps the duty in
{0.0, 1.0} after any sequence of messages. -/
theorem C10_duty_invariant (msgs : List Inbound) :
    (handle_client_loop msgs setup_led_initial_value = 0 ∨
      handle_client_loop msgs setup_led_initial_value = 1) ∧
    (∀ (v : String) (d : ℚ),
      set_led_state v d = 1 ∨ set_led_state v d = 0 ∨
        set_led_state v d = d) := by
  constructor
  · exact handle_client_loop_duty msgs setup_led_initial_value
      (Or.inl rfl)
  · intro v d
    rw [set_led_state]
    by_cases h1 : upperStr v = "ON"
    · simp [h1]
    · by_cases h2 : upperStr v = "OFF"
      · simp [h1, h2]
      · simp [h1, h2]

end PhotoPortal
